import Mathlib

/-!
Shallow embedding of the vidyarajan backend (`src/server.js`) for checking
the natural-language specification against the code.

Modelling conventions, shared by every definition below:

* A database table is a `List` of row structures; `INSERT` appends,
  `DELETE ... WHERE id = ?` filters, `UPDATE ... WHERE id = ?` maps.
  `SELECT ... LIMIT 1` / `results[0]` is `List.head?` / `List.find?`.
* The upload directory is a `List String` of stored path names.  The multer
  middleware (`upload.single(...)`) runs *before* every route handler: when
  the request carries a file it is written to the upload directory at a
  generated name before any validation in the handler executes.  A request
  file is modelled as `Option String` carrying the generated filename.
* JavaScript truthiness on request-body strings: `undefined` and `""` are
  falsy.  Absent body fields are modelled either as `Option String` with
  `none` = `undefined`, or as `String` where `""` stands for both falsy
  cases, as noted per definition.
* HTTP responses are the `Resp` structure (status code plus the `error` /
  `message` string of the JSON body); routes with richer bodies get their
  own response structures.
-/

/-- HTTP JSON response shape common to most routes in `server.js`. -/
structure Resp where
  status : Nat
  error : Option String := none
  message : Option String := none
deriving Repr, DecidableEq

/-- JavaScript falsiness of a possibly-absent request-body string:
`undefined` (here `none`) and the empty string are falsy. -/
def jsFalsy : Option String → Bool
  | none => true
  | some s => s == ""

/-- The multer `upload.single` middleware: when the request carries a file,
it is stored in the upload directory (under its generated name) before the
route handler runs; otherwise the directory is untouched. -/
def multerSingle (file : Option String) (dir : List String) : List String :=
  match file with
  | none => dir
  | some fn => fn :: dir

/-! ## Banners (`banners` table): POST /api/banner, DELETE /api/banner/:id -/

/-- Row of the `banners` table (`id`, `text`, `image_url`). -/
structure BannerRow where
  id : Nat
  text : String
  image_url : String
deriving Repr, DecidableEq

/-- State touched by the `banners` routes: the table, the `AUTO_INCREMENT`
counter, and the upload directory. -/
structure BannerState where
  banners : List BannerRow
  nextId : Nat
  uploadsDir : List String
deriving Repr, DecidableEq

/-- `POST /api/banner` (server.js:120-133).  The multer middleware first
stores the uploaded file (if any); the handler then computes
`imageUrl = req.file ? "/uploads/" + filename : null`, rejects with 400 when
`!text || !imageUrl`, and otherwise inserts `(text, image_url)` into
`banners`. -/
def postApiBanner (text : Option String) (file : Option String) (s : BannerState) :
    Resp × BannerState :=
  let dir := multerSingle file s.uploadsDir
  match text, file with
  | some t, some fn =>
    if t == "" then
      ({ status := 400, error := some "Text and image are required." },
       { s with uploadsDir := dir })
    else
      ({ status := 200, message := some "Banner saved successfully!" },
       { banners := s.banners ++ [⟨s.nextId, t, "/uploads/" ++ fn⟩],
         nextId := s.nextId + 1,
         uploadsDir := dir })
  | _, _ =>
    ({ status := 400, error := some "Text and image are required." },
     { s with uploadsDir := dir })

/-! ## C1 -/

/-- Concrete starting state for the C1 counterexample: empty table, empty
upload directory. -/
def c1State : BannerState := { banners := [], nextId := 1, uploadsDir := [] }

/-- C1 counterexample: a `POST /api/banner` request with the `text` field
absent but an image file attached fails validation (status 400) and inserts
no row, yet the uploaded file HAS been written to the upload directory by
the multer middleware, which runs before the handler's validation.  This
refutes the claim's assertion that validation precedes every side effect
and that no file is written. -/
theorem c1_counterexample :
    (postApiBanner none (some "174.png") c1State).1.status = 400 ∧
    (postApiBanner none (some "174.png") c1State).2.banners = [] ∧
    ¬ (postApiBanner none (some "174.png") c1State).2.uploadsDir = c1State.uploadsDir := by
  decide

/-- C1 (amended): when a required scalar field or the required file is
missing, `POST /api/banner` fails with a validation error (400) and inserts
no database row; if the file was omitted no file is written, but if a file
was supplied together with a missing scalar field, that file has already
been stored by the upload middleware and remains in the upload directory. -/
theorem c1_amended (text : Option String) (file : Option String) (s : BannerState)
    (hmiss : jsFalsy text = true ∨ file = none) :
    (postApiBanner text file s).1.status = 400 ∧
    (postApiBanner text file s).2.banners = s.banners ∧
    (file = none → (postApiBanner text file s).2.uploadsDir = s.uploadsDir) ∧
    (∀ fn, file = some fn →
      (postApiBanner text file s).2.uploadsDir = fn :: s.uploadsDir) := by
  match text, file with
  | none, none => simp [postApiBanner, multerSingle]
  | none, some fn => simp [postApiBanner, multerSingle]
  | some t, none => simp [postApiBanner, multerSingle]
  | some t, some fn =>
    have ht : t = "" := by
      rcases hmiss with h | h
      · simpa [jsFalsy] using h
      · exact absurd h (by simp)
    subst ht
    simp [postApiBanner, multerSingle]

/-- C1 witness: the amended theorem applied at a concrete missing-text
request carrying a file. -/
theorem c1_amended_witness :
    (jsFalsy none = true ∨ (some "174.png" : Option String) = none) ∧
    ((postApiBanner none (some "174.png") c1State).1.status = 400 ∧
     (postApiBanner none (some "174.png") c1State).2.banners = c1State.banners ∧
     ((some "174.png" : Option String) = none →
       (postApiBanner none (some "174.png") c1State).2.uploadsDir = c1State.uploadsDir) ∧
     (∀ fn, (some "174.png" : Option String) = some fn →
       (postApiBanner none (some "174.png") c1State).2.uploadsDir = fn :: c1State.uploadsDir)) :=
  ⟨Or.inl (by decide), c1_amended none (some "174.png") c1State (Or.inl (by decide))⟩

/-! ## File-system primitive: fs.unlink / fs.unlinkSync -/

/-- Outcome of a single `fs.unlink` call: success, `ENOENT` (the path is
absent), or some other I/O error. -/
inductive UnlinkOutcome where
  | ok
  | enoent
  | ioErr
deriving Repr, DecidableEq

/-- File system visible to the server: the set of present paths, plus a set
of paths on which `unlink` fails with a non-`ENOENT` I/O error (fault
injection, to model the error branches the code distinguishes). -/
structure FS where
  files : List String
  faulty : List String
deriving Repr, DecidableEq

/-- `fs.unlink(p)` / `fs.unlinkSync(p)`: removes path `p`; yields `ENOENT`
when `p` is absent, and a non-`ENOENT` error when `p` is marked faulty. -/
def fsUnlink (p : String) (fs : FS) : UnlinkOutcome × FS :=
  if p ∈ fs.faulty then (.ioErr, fs)
  else if p ∈ fs.files then (.ok, { fs with files := fs.files.erase p })
  else (.enoent, fs)

/-! ## Singleton NEET banner (`banner` table):
POST /api/banner/upload, DELETE /api/banner/delete -/

/-- State of the singleton `banner` table (rows are the `image_path`
strings) and the file system. -/
structure NeetBannerState where
  rows : List String
  fs : FS
deriving Repr, DecidableEq

/-- `POST /api/banner/upload` (server.js:869-883).  Multer stores the file;
a request without a file is rejected (400); otherwise the handler runs
`DELETE FROM banner` and then inserts `uploads/<filename>` as the single
`image_path` row. -/
def postApiBannerUpload (file : Option String) (s : NeetBannerState) :
    Resp × NeetBannerState :=
  match file with
  | none => ({ status := 400, error := some "No file uploaded" }, s)
  | some fn =>
    let fs1 : FS := { s.fs with files := ("uploads/" ++ fn) :: s.fs.files }
    ({ status := 200, message := some "Banner uploaded successfully" },
     { rows := ["uploads/" ++ fn], fs := fs1 })

/-- `DELETE /api/banner/delete` (server.js:886-904).  Reads the single
`image_path`; 404 when the table is empty; runs `DELETE FROM banner`; then
`fs.unlink(imagePath)`: an `ENOENT` failure is treated as success, any
other unlink error yields 500 — after the rows are already gone, with no
rollback. -/
def deleteApiBannerDelete (s : NeetBannerState) : Resp × NeetBannerState :=
  match s.rows.head? with
  | none => ({ status := 404, error := some "No banner found" }, s)
  | some imagePath =>
    let (r, fs1) := fsUnlink imagePath s.fs
    match r with
    | .ioErr =>
      ({ status := 500, error := some "Failed to delete image file" },
       { rows := [], fs := fs1 })
    | _ =>
      ({ status := 200, message := some "Banner deleted successfully" },
       { rows := [], fs := fs1 })

/-! ## Student stories (`students` table): POST /students, DELETE /students/:id -/

/-- Row of the `students` table as touched by the delete route (`id` and the
`photo` path column; `photo` may be `NULL`). -/
structure StudentRow where
  id : Nat
  name : String
  achievement : String
  photo : Option String
deriving Repr, DecidableEq

/-- State of the `students` routes: table plus file system. -/
structure StudentsState where
  rows : List StudentRow
  fs : FS
deriving Repr, DecidableEq

/-- `DELETE /students/:id` (server.js:441-462).  Fetches the row (404 when
absent); if `photo` is non-null calls `fs.unlinkSync("." + photo)` with no
try/catch — when the file is absent or the unlink errors, the synchronous
throw aborts the handler (Express answers 500) BEFORE the row deletion
runs; only when the unlink succeeds (or `photo` is null) is the row
deleted. -/
def deleteStudents (id : Nat) (s : StudentsState) : Resp × StudentsState :=
  match s.rows.find? (fun r => r.id == id) with
  | none => ({ status := 404, error := some "Student not found" }, s)
  | some row =>
    match row.photo with
    | none =>
      ({ status := 200, message := some "✅ Student deleted successfully" },
       { rows := s.rows.filter (fun q => q.id != id), fs := s.fs })
    | some p =>
      let (r, fs1) := fsUnlink ("." ++ p) s.fs
      match r with
      | .ok =>
        ({ status := 200, message := some "✅ Student deleted successfully" },
         { rows := s.rows.filter (fun q => q.id != id), fs := fs1 })
      | _ => ({ status := 500 }, { s with fs := fs1 })

/-! ## C2 -/

/-- Concrete state for the C2 counterexample: one student row whose photo
file is NOT present on disk. -/
def c2State : StudentsState :=
  { rows := [⟨1, "Asha", "AIR 12", some "/uploads/gone.png"⟩],
    fs := { files := [], faulty := [] } }

/-- C2 counterexample: deleting student 1, whose referenced photo file is
already absent, does NOT succeed — `fs.unlinkSync` throws `ENOENT` before
the row deletion, the request fails with 500 and the row is still present.
This refutes the claim that a delete on an existing row of a file-bearing
resource treats an already-absent file as success. -/
theorem c2_counterexample :
    (deleteStudents 1 c2State).1.status = 500 ∧
    (deleteStudents 1 c2State).2.rows = c2State.rows := by
  decide

/-- C2 (amended): the claimed behaviour holds for `DELETE /api/banner/delete`
— the row is removed together with its file, an already-absent file is
treated as success, and a non-`ENOENT` unlink error is reported (500)
without undoing the row deletion — but for `DELETE /students/:id` an
already-absent photo file makes the unguarded `fs.unlinkSync` throw before
the row deletion, so the request fails with 500 and the row survives. -/
theorem c2_amended (p : String) (s : NeetBannerState) (t : StudentsState)
    (hrow : s.rows.head? = some p)
    (stRow : StudentRow) (hst : t.rows.find? (fun r => r.id == stRow.id) = some stRow)
    (hphoto : ∀ q, stRow.photo = some q →
      ("." ++ q) ∉ t.fs.files ∧ ("." ++ q) ∉ t.fs.faulty) :
    ((deleteApiBannerDelete s).2.rows = [] ∧
     (p ∉ s.fs.faulty → p ∉ s.fs.files → (deleteApiBannerDelete s).1.status = 200) ∧
     (p ∉ s.fs.faulty → p ∈ s.fs.files → (deleteApiBannerDelete s).1.status = 200 ∧
        (deleteApiBannerDelete s).2.fs.files = s.fs.files.erase p) ∧
     (p ∈ s.fs.faulty → (deleteApiBannerDelete s).1.status = 500 ∧
        (deleteApiBannerDelete s).2.rows = [])) ∧
    (∀ q, stRow.photo = some q →
      (deleteStudents stRow.id t).1.status = 500 ∧
      (deleteStudents stRow.id t).2.rows = t.rows) := by
  constructor
  · refine ⟨?_, ?_, ?_, ?_⟩
    · simp only [deleteApiBannerDelete, hrow]
      by_cases hf : p ∈ s.fs.faulty <;> by_cases he : p ∈ s.fs.files <;>
        simp [fsUnlink, hf, he]
    · intro hf he
      simp [deleteApiBannerDelete, hrow, fsUnlink, hf, he]
    · intro hf he
      simp [deleteApiBannerDelete, hrow, fsUnlink, hf, he]
    · intro hf
      simp [deleteApiBannerDelete, hrow, fsUnlink, hf]
  · intro q hq
    obtain ⟨hfile, hfaulty⟩ := hphoto q hq
    simp [deleteStudents, hst, hq, fsUnlink, hfile, hfaulty]

/-- C2 witness: the amended theorem applied at a concrete banner state and
the concrete student state of the counterexample. -/
theorem c2_amended_witness :
    ((NeetBannerState.mk ["uploads/b.png"] ⟨["uploads/b.png"], []⟩).rows.head?
        = some "uploads/b.png") ∧
    ((deleteApiBannerDelete ⟨["uploads/b.png"], ⟨["uploads/b.png"], []⟩⟩).2.rows = [] ∧
     ("uploads/b.png" ∉ (FS.mk ["uploads/b.png"] []).faulty →
      "uploads/b.png" ∉ (FS.mk ["uploads/b.png"] []).files →
      (deleteApiBannerDelete ⟨["uploads/b.png"], ⟨["uploads/b.png"], []⟩⟩).1.status = 200) ∧
     ("uploads/b.png" ∉ (FS.mk ["uploads/b.png"] []).faulty →
      "uploads/b.png" ∈ (FS.mk ["uploads/b.png"] []).files →
      (deleteApiBannerDelete ⟨["uploads/b.png"], ⟨["uploads/b.png"], []⟩⟩).1.status = 200 ∧
      (deleteApiBannerDelete ⟨["uploads/b.png"], ⟨["uploads/b.png"], []⟩⟩).2.fs.files
        = (FS.mk ["uploads/b.png"] []).files.erase "uploads/b.png") ∧
     ("uploads/b.png" ∈ (FS.mk ["uploads/b.png"] []).faulty →
      (deleteApiBannerDelete ⟨["uploads/b.png"], ⟨["uploads/b.png"], []⟩⟩).1.status = 500 ∧
      (deleteApiBannerDelete ⟨["uploads/b.png"], ⟨["uploads/b.png"], []⟩⟩).2.rows = [])) ∧
    (∀ q, (StudentRow.mk 1 "Asha" "AIR 12" (some "/uploads/gone.png")).photo = some q →
      (deleteStudents 1 c2State).1.status = 500 ∧
      (deleteStudents 1 c2State).2.rows = c2State.rows) :=
  ⟨by decide,
   c2_amended "uploads/b.png" ⟨["uploads/b.png"], ⟨["uploads/b.png"], []⟩⟩ c2State
     (by decide) ⟨1, "Asha", "AIR 12", some "/uploads/gone.png"⟩ (by decide)
     (by intro q hq; simp only [Option.some.injEq] at hq; subst hq
         exact ⟨by decide, by decide⟩)⟩

/-! ## Deletes without an existence check, and DELETE /api/banner/:id -/

/-- Row of the `courses` table. -/
structure CourseRow where
  id : Nat
  name : String
  description : String
deriving Repr, DecidableEq

/-- `DELETE /courses/:id` (server.js:212-218): runs the `DELETE` statement
with no existence check and answers "Course deleted" regardless of whether
any row matched. -/
def deleteCourses (id : Nat) (rows : List CourseRow) : Resp × List CourseRow :=
  ({ status := 200, message := some "Course deleted" },
   rows.filter (fun r => r.id != id))

/-- Row of the `testimonials` table. -/
structure TestimonialRow where
  id : Nat
  name : String
  role : String
  text : String
  rating : String
deriving Repr, DecidableEq

/-- `DELETE /testimonials/:id` (server.js:1203-1209): runs the `DELETE`
statement with no existence check and answers "Testimonial deleted
successfully" regardless of whether any row matched. -/
def deleteTestimonials (id : Nat) (rows : List TestimonialRow) :
    Resp × List TestimonialRow :=
  ({ status := 200, message := some "Testimonial deleted successfully" },
   rows.filter (fun r => r.id != id))

/-- State of the banner-by-id delete route: the `banners` table and the file
system. -/
structure BannerDelState where
  banners : List BannerRow
  fs : FS
deriving Repr, DecidableEq

/-- `DELETE /api/banner/:id` (server.js:156-176): selects `image_url` by id
(404 when no row matches), deletes the row, then unlinks
`__dirname/public/<image_url>` — note the `public` directory, not the
`uploads` directory where files are stored — logging but otherwise
ignoring any unlink error, and answers success. -/
def deleteApiBannerById (id : Nat) (s : BannerDelState) : Resp × BannerDelState :=
  match s.banners.find? (fun b => b.id == id) with
  | none => ({ status := 404, error := some "Banner not found" }, s)
  | some b =>
    let (_r, fs1) := fsUnlink ("public" ++ b.image_url) s.fs
    ({ status := 200, message := some "Banner deleted successfully!" },
     { banners := s.banners.filter (fun q => q.id != id), fs := fs1 })

/-! ## C3 -/

/-- C3 counterexample: after `DELETE /courses/1` removes the only row,
deleting the same id a second time answers 200 "Course deleted" — a success
response, not a `NotFoundError` — refuting the claim that every delete of a
non-existent id fails with `NotFoundError`. -/
theorem c3_counterexample :
    (deleteCourses 1 (deleteCourses 1 [⟨1, "JEE", "desc"⟩]).2).1.status = 200 ∧
    (deleteCourses 1 (deleteCourses 1 [⟨1, "JEE", "desc"⟩]).2).1.message
      = some "Course deleted" := by
  decide

/-- C3 (amended): only the delete routes that first select the row report
`NotFoundError` — `DELETE /api/banner/:id` answers 404 and leaves the state
unchanged when the id has no row — whereas `DELETE /courses/:id` and
`DELETE /testimonials/:id` execute the `DELETE` statement unconditionally
and answer success even when no row matched. -/
theorem c3_amended (id : Nat) (s : BannerDelState)
    (rows : List CourseRow) (ts : List TestimonialRow)
    (hnone : s.banners.find? (fun b => b.id == id) = none) :
    ((deleteApiBannerById id s).1.status = 404 ∧ (deleteApiBannerById id s).2 = s) ∧
    (deleteCourses id rows).1.status = 200 ∧
    (deleteTestimonials id ts).1.status = 200 := by
  refine ⟨⟨?_, ?_⟩, ?_, ?_⟩ <;> simp [deleteApiBannerById, hnone, deleteCourses, deleteTestimonials]

/-- C3 witness: the amended theorem applied to concrete empty tables. -/
theorem c3_amended_witness :
    ((BannerDelState.mk [] ⟨[], []⟩).banners.find? (fun b => b.id == 7) = none) ∧
    (((deleteApiBannerById 7 ⟨[], ⟨[], []⟩⟩).1.status = 404 ∧
      (deleteApiBannerById 7 ⟨[], ⟨[], []⟩⟩).2 = ⟨[], ⟨[], []⟩⟩) ∧
     (deleteCourses 7 []).1.status = 200 ∧
     (deleteTestimonials 7 []).1.status = 200) :=
  ⟨by decide, c3_amended 7 ⟨[], ⟨[], []⟩⟩ [] [] (by decide)⟩

/-! ## GET /explorecourse: search + offset pagination -/

/-- Row of the `explorecourses` table. -/
structure ECRow where
  id : Nat
  name : String
  description : String
  image : String
deriving Repr, DecidableEq

/-- JSON body answered by `GET /explorecourse`. -/
structure ECListResp where
  page : Int
  limit : Int
  totalCourses : Nat
  courses : List ECRow
deriving Repr, DecidableEq

/-- Result of JavaScript `parseInt` on a query-string parameter: the
parameter may be absent from the query string, parse to `NaN` (a
non-numeric string), or parse to an integer. -/
inductive JSNum where
  | absent
  | nan
  | int (n : Int)
deriving Repr, DecidableEq

/-- `parseInt(x) || d`: `NaN` (from an absent or non-numeric parameter) and
the falsy integer `0` fall back to the default `d`; any other parsed
integer — including a negative one — is kept. -/
def jsParseIntOr (p : JSNum) (d : Int) : Int :=
  match p with
  | .absent => d
  | .nan => d
  | .int n => if n = 0 then d else n

/-- `name LIKE '%pat%'`: the pattern occurs as a substring (an empty
pattern matches everything). -/
def sqlLikeContains (pat s : String) : Bool :=
  pat.isEmpty || (s.splitOn pat).length ≥ 2

/-- `GET /explorecourse` (server.js:221-249).  `page = parseInt(page) || 1`,
`limit = parseInt(limit) || 10`, `offset = (page-1)*limit`; an optional
`search` adds `AND name LIKE '%search%'`; the query appends
`LIMIT ? OFFSET ?` (`none` models the MySQL error produced by a negative
limit or offset, answered as 500); `totalCourses` in the response is
`results.length` — the size of the returned page, not of the full result
set. -/
def getExplorecourse (page limit : JSNum) (search : Option String)
    (rows : List ECRow) : Option ECListResp :=
  let p := jsParseIntOr page 1
  let l := jsParseIntOr limit 10
  let off := (p - 1) * l
  let filtered := match search with
    | none => rows
    | some pat => rows.filter (fun r => sqlLikeContains pat r.name)
  if l < 0 ∨ off < 0 then none
  else
    let cs := (filtered.drop off.toNat).take l.toNat
    some { page := p, limit := l, totalCourses := cs.length, courses := cs }


/-! ## C4 -/

/-- C4: over a 25-row table, `GET /explorecourse` behaves as claimed:
absent or non-numeric `page`/`limit` default to page 1 and page size 10;
`page=2&limit=10` returns rows 11-20 in table order; `page=99&limit=10`
returns an empty list (not an error); and in every successful response
`totalCourses` equals the number of rows of the returned page (10 on the
first page of the 25-row table, not 25). -/
theorem c4_pagination (rows : List ECRow) (h25 : rows.length = 25) :
    (getExplorecourse .absent .absent none rows
       = some ⟨1, 10, 10, rows.take 10⟩) ∧
    (getExplorecourse .nan .nan none rows
       = some ⟨1, 10, 10, rows.take 10⟩) ∧
    (getExplorecourse (.int 2) (.int 10) none rows
       = some ⟨2, 10, 10, (rows.drop 10).take 10⟩) ∧
    (getExplorecourse (.int 99) (.int 10) none rows
       = some ⟨99, 10, 0, []⟩) ∧
    (∀ pg lim resp, getExplorecourse pg lim none rows = some resp →
       resp.totalCourses = resp.courses.length) := by
  refine ⟨?_, ?_, ?_, ?_, ?_⟩
  · simp only [getExplorecourse, jsParseIntOr]
    norm_num
    omega
  · simp only [getExplorecourse, jsParseIntOr]
    norm_num
    omega
  · simp only [getExplorecourse, jsParseIntOr]
    norm_num
    constructor
    · omega
    · rw [show ((10 : Int)).toNat = 10 from rfl]
  · simp only [getExplorecourse, jsParseIntOr]
    norm_num
    omega
  · intro pg lim resp hresp
    simp only [getExplorecourse] at hresp
    split at hresp
    · simp at hresp
    · rw [← Option.some_inj.mp hresp]

/-- C4 witness: the pagination theorem applied to a concrete 25-row table
(page 99 of size 10 is the empty page). -/
theorem c4_pagination_witness :
    (((List.range 25).map (fun i => ECRow.mk i "course" "d" "img")).length = 25) ∧
    (getExplorecourse (.int 99) (.int 10) none
        ((List.range 25).map (fun i => ECRow.mk i "course" "d" "img"))
      = some ⟨99, 10, 0, []⟩) :=
  ⟨by simp,
   (c4_pagination ((List.range 25).map (fun i => ECRow.mk i "course" "d" "img"))
     (by simp)).2.2.2.1⟩

/-! ## Singleton price (`prices` table): POST /api/price -/

/-- Request-body fields of `POST /api/price` (falsy fields modelled as ""). -/
structure PriceFields where
  originalPrice : String
  discount : String
  duration : String
  finalPrice : String
  emiOption : String
deriving Repr, DecidableEq

/-- Row of the `prices` table. -/
structure PriceRow where
  original_price : String
  discount : String
  duration : String
  final_price : String
  emi_option : String
deriving Repr, DecidableEq

/-- The validation guard of `POST /api/price`:
`!originalPrice || !discount || !duration || !finalPrice || !emiOption`. -/
def priceFieldsMissing (f : PriceFields) : Bool :=
  f.originalPrice == "" || f.discount == "" || f.duration == "" ||
    f.finalPrice == "" || f.emiOption == ""

/-- `POST /api/price` (server.js:827-850).  After validation it runs a plain
`INSERT INTO prices` — no delete of prior rows and no upsert — so every
call appends one more row; only the read route (`ORDER BY id DESC LIMIT 1`)
makes the latest row look authoritative. -/
def postApiPrice (f : PriceFields) (rows : List PriceRow) : Resp × List PriceRow :=
  if priceFieldsMissing f then
    ({ status := 400, error := some "All fields are required" }, rows)
  else
    ({ status := 200, message := some "Price details updated successfully!" },
     rows ++ [⟨f.originalPrice, f.discount, f.duration, f.finalPrice, f.emiOption⟩])

/-! ## Singleton NEET details (`neet_details` table): POST /api/neet-details -/

/-- Request-body fields of `POST /api/neet-details`. -/
structure NeetDetailsFields where
  address : String
  timing : String
  contact : String
  courseDetails : String
  price : String
deriving Repr, DecidableEq

/-- Row of the `neet_details` table (fixed `id` column). -/
structure NeetDetailsRow where
  id : Nat
  address : String
  timing : String
  contact : String
  courseDetails : String
  price : String
deriving Repr, DecidableEq

/-- The validation guard of `POST /api/neet-details`. -/
def neetDetailsMissing (f : NeetDetailsFields) : Bool :=
  f.address == "" || f.timing == "" || f.contact == "" ||
    f.courseDetails == "" || f.price == ""

/-- `POST /api/neet-details` (server.js:925-951).  After validation it runs
`INSERT ... VALUES (1, ...) ON DUPLICATE KEY UPDATE ...`: an upsert keyed
to the fixed id 1, so the row with id 1 is created on the first call and
overwritten on every later call. -/
def postNeetDetails (f : NeetDetailsFields) (rows : List NeetDetailsRow) :
    Resp × List NeetDetailsRow :=
  if neetDetailsMissing f then
    ({ status := 400, error := some "All fields are required!" }, rows)
  else if rows.any (fun r => r.id == 1) then
    ({ status := 200, message := some "✅ NEET details updated successfully!" },
     rows.map (fun r =>
       if r.id == 1 then ⟨1, f.address, f.timing, f.contact, f.courseDetails, f.price⟩
       else r))
  else
    ({ status := 200, message := some "✅ NEET details updated successfully!" },
     rows ++ [⟨1, f.address, f.timing, f.contact, f.courseDetails, f.price⟩])

/-! ## C5 -/

/-- Concrete valid payloads for the C5 counterexample. -/
def c5Price1 : PriceFields := ⟨"1000", "10", "12m", "900", "yes"⟩

/-- Second concrete valid payload for the C5 counterexample. -/
def c5Price2 : PriceFields := ⟨"2000", "20", "24m", "1600", "no"⟩

/-- C5 counterexample: the current price is listed by the spec as a
singleton resource, yet two sequential `POST /api/price` calls starting
from an empty `prices` table both succeed and leave TWO rows, not exactly
one — `POST /api/price` is a plain `INSERT` with neither delete-all nor
upsert. -/
theorem c5_counterexample :
    (postApiPrice c5Price1 []).1.status = 200 ∧
    (postApiPrice c5Price2 (postApiPrice c5Price1 []).2).1.status = 200 ∧
    (postApiPrice c5Price2 (postApiPrice c5Price1 []).2).2.length = 2 := by
  decide

/-- C5 (amended): two sequential replace calls leave exactly one row
matching the second payload for the singletons implemented as
delete-all-then-insert (`POST /api/banner/upload`) or as an upsert keyed to
id 1 (`POST /api/neet-details`, starting from an empty table); but
`POST /api/price` appends a fresh row on every call, so two calls leave two
rows — both payloads — in the `prices` table. -/
theorem c5_amended (fn1 fn2 : String) (s : NeetBannerState)
    (f1 f2 : NeetDetailsFields) (g1 g2 : PriceFields)
    (hf1 : neetDetailsMissing f1 = false) (hf2 : neetDetailsMissing f2 = false)
    (hg1 : priceFieldsMissing g1 = false) (hg2 : priceFieldsMissing g2 = false) :
    ((postApiBannerUpload (some fn2) (postApiBannerUpload (some fn1) s).2).2.rows
       = ["uploads/" ++ fn2]) ∧
    ((postNeetDetails f2 (postNeetDetails f1 []).2).2
       = [⟨1, f2.address, f2.timing, f2.contact, f2.courseDetails, f2.price⟩]) ∧
    ((postApiPrice g2 (postApiPrice g1 []).2).2
       = [⟨g1.originalPrice, g1.discount, g1.duration, g1.finalPrice, g1.emiOption⟩,
          ⟨g2.originalPrice, g2.discount, g2.duration, g2.finalPrice, g2.emiOption⟩]) := by
  refine ⟨?_, ?_, ?_⟩
  · simp [postApiBannerUpload]
  · simp [postNeetDetails, hf1, hf2]
  · simp [postApiPrice, hg1, hg2]

/-- C5 witness: the amended theorem applied to concrete payloads. -/
theorem c5_amended_witness :
    (neetDetailsMissing ⟨"addr", "9am", "123", "cd", "1000"⟩ = false ∧
     neetDetailsMissing ⟨"addr2", "10am", "456", "cd2", "2000"⟩ = false ∧
     priceFieldsMissing c5Price1 = false ∧ priceFieldsMissing c5Price2 = false) ∧
    ((postApiBannerUpload (some "b.png")
        (postApiBannerUpload (some "a.png") ⟨[], ⟨[], []⟩⟩).2).2.rows
       = ["uploads/" ++ "b.png"]) ∧
    ((postNeetDetails ⟨"addr2", "10am", "456", "cd2", "2000"⟩
        (postNeetDetails ⟨"addr", "9am", "123", "cd", "1000"⟩ []).2).2
       = [⟨1, "addr2", "10am", "456", "cd2", "2000"⟩]) ∧
    ((postApiPrice c5Price2 (postApiPrice c5Price1 []).2).2
       = [⟨"1000", "10", "12m", "900", "yes"⟩, ⟨"2000", "20", "24m", "1600", "no"⟩]) :=
  ⟨⟨by decide, by decide, by decide, by decide⟩,
   (c5_amended "a.png" "b.png" ⟨[], ⟨[], []⟩⟩
      ⟨"addr", "9am", "123", "cd", "1000"⟩ ⟨"addr2", "10am", "456", "cd2", "2000"⟩
      c5Price1 c5Price2 (by decide) (by decide) (by decide) (by decide))⟩

/-! ## Blog banner (`blog_banners` table): POST /api/blog/upload-banner -/

/-- `process.env.PORT || 5000`: the port baked into stored blog-banner URLs. -/
def serverPort : Nat := 5000

/-- State of the blog-banner routes: the `blog_banners` table (its
`imageUrl` column values) and the upload directory. -/
structure BlogBannerState where
  rows : List String
  uploadsDir : List String
deriving Repr, DecidableEq

/-- `POST /api/blog/upload-banner` (server.js:1344-1357).  Multer stores the
file; a request without a file is rejected (400); otherwise the handler
builds `imageUrl = "http://localhost:" + PORT + "/uploads/" + filename` —
an ABSOLUTE URL with the host baked in — and inserts that string into
`blog_banners.imageUrl`. -/
def postBlogUploadBanner (file : Option String) (s : BlogBannerState) :
    Resp × BlogBannerState :=
  match file with
  | none => ({ status := 400, message := some "No file uploaded" }, s)
  | some fn =>
    let imageUrl := "http://localhost:" ++ toString serverPort ++ "/uploads/" ++ fn
    ({ status := 200, message := some "Banner uploaded successfully" },
     { rows := s.rows ++ [imageUrl], uploadsDir := fn :: s.uploadsDir })

/-! ## C6 -/

/-- C6 (code bug): the value `POST /api/blog/upload-banner` persists in the
row's file-reference column is the absolute URL
`http://localhost:5000/uploads/<filename>` — it contains the scheme and
host — not a path relative to the upload prefix, while `POST /api/banner`
on the same server persists the relative `/uploads/<filename>`.  Evaluated
at the failing input (uploaded file `174.png` on an empty table): the
persisted value starts with `http://localhost:`, so the externally visible
URL cannot be recomputed as base_url + file_reference without baking in
the old host. -/
theorem c6_code_bug :
    (postBlogUploadBanner (some "174.png") ⟨[], []⟩).2.rows
      = ["http://localhost:5000/uploads/174.png"] ∧
    "http://localhost:".data.isPrefixOf "http://localhost:5000/uploads/174.png".data = true ∧
    (postApiBanner (some "Sale") (some "174.png") c1State).2.banners
      = [⟨1, "Sale", "/uploads/174.png"⟩] := by
  refine ⟨by decide, by decide, by decide⟩

/-! ## Olympiad students (`olympiad_students` table): PUT /api/students/:id -/

/-- Row of the `olympiad_students` table. -/
structure OlyStudentRow where
  id : Nat
  name : String
  rank : String
  image : String
deriving Repr, DecidableEq

/-- State of the olympiad-student routes: table plus upload directory. -/
structure OlyStudentsState where
  rows : List OlyStudentRow
  uploadsDir : List String
deriving Repr, DecidableEq

/-- `PUT /api/students/:id` (server.js:1064-1080).  Multer stores the new
file (if any); `imageUrl = req.file ? "/uploads/" + filename :
req.body.image`; then a single `UPDATE olympiad_students SET name=?,
rank=?, image=? WHERE id=?`.  No `fs.unlink` appears anywhere in the
route: the previously referenced file is never deleted from the upload
directory. -/
def putApiStudents (id : Nat) (nm rk : String) (file : Option String)
    (bodyImage : String) (s : OlyStudentsState) : Resp × OlyStudentsState :=
  let dir := multerSingle file s.uploadsDir
  let imageUrl := match file with
    | some fn => "/uploads/" ++ fn
    | none => bodyImage
  ({ status := 200, message := some "Student updated successfully" },
   { rows := s.rows.map (fun r =>
       if r.id == id then { r with name := nm, rank := rk, image := imageUrl } else r),
     uploadsDir := dir })

/-! ## C7 -/

/-- Concrete state for the C7 counterexample: one student whose image is
`/uploads/old.png`, with the file `old.png` present in the upload
directory. -/
def c7State : OlyStudentsState :=
  { rows := [⟨1, "Asha", "AIR 3", "/uploads/old.png"⟩],
    uploadsDir := ["old.png"] }

/-- C7 counterexample: updating student 1 with a new image file replaces
the stored reference (`/uploads/new.png`) and the update is fully
committed, yet the previously referenced file `old.png` is STILL present
in the upload directory — the route never deletes it — refuting the
claim that after the update the old file is no longer present. -/
theorem c7_counterexample :
    (putApiStudents 1 "Asha" "AIR 3" (some "new.png") "" c7State).2.rows
      = [⟨1, "Asha", "AIR 3", "/uploads/new.png"⟩] ∧
    "old.png" ∈ (putApiStudents 1 "Asha" "AIR 3" (some "new.png") "" c7State).2.uploadsDir := by
  decide

/-- C7 (amended): on `PUT /api/students/:id` with a new file, every row
whose id matches gets the new file's reference, and — provided the old
reference was unique to that row and differs from the new one — the old
file is no longer referenced by any row; but the route performs no file
deletion at all: the upload directory after the call is exactly the old
directory with the new file added, so the previously referenced file
remains in storage as an orphan. -/
theorem c7_amended (id : Nat) (nm rk fn bodyImage oldRef : String)
    (s : OlyStudentsState) (r0 : OlyStudentRow)
    (hr0 : r0 ∈ s.rows) (hid : r0.id = id) (href : r0.image = oldRef)
    (huniq : ∀ q ∈ s.rows, q.image = oldRef → q.id = id)
    (hnew : "/uploads/" ++ fn ≠ oldRef) :
    (∀ q ∈ (putApiStudents id nm rk (some fn) bodyImage s).2.rows,
       q.id = id → q.image = "/uploads/" ++ fn) ∧
    (∀ q ∈ (putApiStudents id nm rk (some fn) bodyImage s).2.rows,
       q.image ≠ oldRef) ∧
    (putApiStudents id nm rk (some fn) bodyImage s).2.uploadsDir = fn :: s.uploadsDir := by
  refine ⟨?_, ?_, by simp [putApiStudents, multerSingle]⟩
  · intro q hq hqid
    simp only [putApiStudents, List.mem_map] at hq
    obtain ⟨p, hp, hpq⟩ := hq
    by_cases hpid : p.id == id
    · simp [hpid] at hpq
      rw [← hpq]
    · simp [hpid] at hpq
      rw [← hpq] at hqid
      exact absurd hqid (by simpa using hpid)
  · intro q hq
    simp only [putApiStudents, List.mem_map] at hq
    obtain ⟨p, hp, hpq⟩ := hq
    by_cases hpid : p.id == id
    · simp [hpid] at hpq
      rw [← hpq]
      exact hnew
    · simp [hpid] at hpq
      rw [← hpq]
      intro hcontra
      have hpi : p.id = id := huniq p hp hcontra
      simp [hpi] at hpid

/-- C7 witness: the amended theorem applied at the concrete counterexample
state. -/
theorem c7_amended_witness :
    ((OlyStudentRow.mk 1 "Asha" "AIR 3" "/uploads/old.png") ∈ c7State.rows ∧
     (OlyStudentRow.mk 1 "Asha" "AIR 3" "/uploads/old.png").id = 1 ∧
     (OlyStudentRow.mk 1 "Asha" "AIR 3" "/uploads/old.png").image = "/uploads/old.png" ∧
     ("/uploads/" ++ "new.png" ≠ "/uploads/old.png")) ∧
    ((∀ q ∈ (putApiStudents 1 "A" "R" (some "new.png") "" c7State).2.rows,
        q.id = 1 → q.image = "/uploads/" ++ "new.png") ∧
     (∀ q ∈ (putApiStudents 1 "A" "R" (some "new.png") "" c7State).2.rows,
        q.image ≠ "/uploads/old.png") ∧
     (putApiStudents 1 "A" "R" (some "new.png") "" c7State).2.uploadsDir
       = "new.png" :: c7State.uploadsDir) :=
  have huniq : ∀ q ∈ c7State.rows, q.image = "/uploads/old.png" → q.id = 1 := by
    intro q hq himg
    simp only [c7State, List.mem_singleton] at hq
    rw [hq]
  ⟨⟨by decide, by decide, by decide, by decide⟩,
   c7_amended 1 "A" "R" "new.png" "" "/uploads/old.png" c7State
     ⟨1, "Asha", "AIR 3", "/uploads/old.png"⟩ (by decide) (by decide) (by decide)
     huniq (by decide)⟩

/-! ## Users (`users` table): POST /register, POST /login -/

/-- Model of a bcrypt hash string: `bcrypt.hash(pw, rounds)` produces a
salted one-way digest; the functional contract used by the code is only
that `bcrypt.compare(p, h)` succeeds exactly when `h` was produced from
`p`, which the model captures by recording the hashed password and the
salt rounds.  One-way-ness itself is outside the embedding. -/
structure BcryptDigest where
  hashedFrom : String
  saltRounds : Nat
deriving Repr, DecidableEq

/-- `bcrypt.hash(password, saltRounds)`. -/
def bcryptHash (password : String) (saltRounds : Nat) : BcryptDigest :=
  ⟨password, saltRounds⟩

/-- `bcrypt.compare(password, storedHash)`: true exactly when the stored
digest was produced from `password`. -/
def bcryptCompare (password : String) (h : BcryptDigest) : Bool :=
  password == h.hashedFrom

/-- Row of the `users` table; the `password` column holds the bcrypt
digest. -/
structure UserRow where
  id : Nat
  fullName : String
  email : String
  password : BcryptDigest
deriving Repr, DecidableEq

/-- State of the auth routes: the `users` table and its id counter. -/
structure UsersState where
  users : List UserRow
  nextId : Nat
deriving Repr, DecidableEq

/-- Response of the auth routes: status, error/message, and (for a
successful login) the `user` field of the JSON body. -/
structure AuthResp where
  status : Nat
  error : Option String := none
  message : Option String := none
  user : Option UserRow := none
deriving Repr, DecidableEq

/-- `POST /register` (server.js:90-117).  Rejects falsy fields (400);
`SELECT * FROM users WHERE email = ?` — any match means 400 "Email already
in use"; otherwise inserts `(fullName, email, bcrypt.hash(password, 10))`. -/
def postRegister (fullName email password : String) (s : UsersState) :
    AuthResp × UsersState :=
  if fullName == "" || email == "" || password == "" then
    ({ status := 400, error := some "All fields are required" }, s)
  else if (s.users.find? (fun u => u.email == email)).isSome then
    ({ status := 400, error := some "Email already in use" }, s)
  else
    ({ status := 201, message := some "User registered successfully" },
     { users := s.users ++ [⟨s.nextId, fullName, email, bcryptHash password 10⟩],
       nextId := s.nextId + 1 })

/-- `POST /login` (server.js:62-87).  Rejects falsy fields (400); takes
`results[0]` of `SELECT * FROM users WHERE email = ?` — 400 "Invalid email
or password" when there is none; compares the submitted password against
the stored hash with `bcrypt.compare` — 400 on mismatch; on success
answers `{ message: "Login successful", user }` with the ENTIRE stored
row, bcrypt digest included. -/
def postLogin (email password : String) (s : UsersState) : AuthResp :=
  if email == "" || password == "" then
    { status := 400, error := some "All fields are required" }
  else
    match s.users.find? (fun u => u.email == email) with
    | none => { status := 400, error := some "Invalid email or password" }
    | some u =>
      if bcryptCompare password u.password then
        { status := 200, message := some "Login successful", user := some u }
      else
        { status := 400, error := some "Invalid email or password" }

/-- `find?` distributes over append: the first list is searched first. -/
theorem find_eq_or_of_append {α : Type} (p : α → Bool) (l₁ l₂ : List α) :
    (l₁ ++ l₂).find? p = ((l₁.find? p).or (l₂.find? p)) := by
  induction l₁ with
  | nil => simp
  | cons a t ih =>
    by_cases h : p a
    · simp [List.find?_cons_of_pos _ h, h]
    · simp only [List.cons_append, List.find?_cons_of_neg _ h, ih]

/-! ## C8 -/

/-- C8: the credential surface behaves as claimed.  With non-empty
submitted fields: (a) registering an already-registered email fails with
the conflict error and changes nothing; (b) registering a fresh email
appends exactly one row storing `bcrypt.hash(password, 10)` — a salted
one-way digest, not the password in the password column's clear — keyed by
the email; (c) after that registration, login with the right password
succeeds and with any wrong password fails with the auth error; (d) login
on a state whose table has no row for the email fails with the auth error;
and (e) in general login succeeds (200) exactly when some row matches the
email and the submitted password matches its stored hash. -/
theorem c8_auth (fn em pw pw2 : String) (s : UsersState)
    (hfn : fn ≠ "") (hem : em ≠ "") (hpw : pw ≠ "") (hpw2 : pw2 ≠ "") :
    ((s.users.find? (fun u => u.email == em)).isSome →
       (postRegister fn em pw s).1.status = 400 ∧
       (postRegister fn em pw s).1.error = some "Email already in use" ∧
       (postRegister fn em pw s).2 = s) ∧
    (s.users.find? (fun u => u.email == em) = none →
       (postRegister fn em pw s).2.users
         = s.users ++ [⟨s.nextId, fn, em, bcryptHash pw 10⟩] ∧
       (postLogin em pw (postRegister fn em pw s).2).status = 200 ∧
       (pw2 ≠ pw →
         (postLogin em pw2 (postRegister fn em pw s).2).status = 400 ∧
         (postLogin em pw2 (postRegister fn em pw s).2).error
           = some "Invalid email or password")) ∧
    (s.users.find? (fun u => u.email == em) = none →
       (postLogin em pw s).status = 400 ∧
       (postLogin em pw s).error = some "Invalid email or password") ∧
    ((postLogin em pw s).status = 200 ↔
       ∃ u, s.users.find? (fun x => x.email == em) = some u ∧
            bcryptCompare pw u.password = true) := by
  refine ⟨?_, ?_, ?_, ?_⟩
  · intro hdup
    have hex : ∃ x ∈ s.users, x.email = em := by
      simpa [List.find?_isSome] using hdup
    simp [postRegister, hfn, hem, hpw, hex]
  · intro hfresh
    have hreg : (postRegister fn em pw s).2.users
        = s.users ++ [⟨s.nextId, fn, em, bcryptHash pw 10⟩] := by
      simp [postRegister, hfn, hem, hpw, hfresh]
    have hfind : ((postRegister fn em pw s).2.users.find? (fun u => u.email == em))
        = some ⟨s.nextId, fn, em, bcryptHash pw 10⟩ := by
      rw [hreg, find_eq_or_of_append, hfresh]
      simp [List.find?]
    refine ⟨hreg, ?_, ?_⟩
    · simp [postLogin, hem, hpw, hfind, bcryptCompare, bcryptHash]
    · intro hne
      constructor <;>
        simp [postLogin, hem, hpw2, hfind, bcryptCompare, bcryptHash, hne]
  · intro hfresh
    constructor <;> simp [postLogin, hem, hpw, hfresh]
  · constructor
    · intro h200
      simp only [postLogin, hem, hpw] at h200
      rcases hcase : s.users.find? (fun x => x.email == em) with _ | u
      · simp [hcase, hem, hpw] at h200
      · rcases hcmp : bcryptCompare pw u.password with _ | _
        · simp [hcase, hcmp, hem, hpw] at h200
        · exact ⟨u, hcase, hcmp⟩
    · rintro ⟨u, hu, hcmp⟩
      simp [postLogin, hem, hpw, hu, hcmp]

/-- C8 witness: the auth theorem applied at concrete credentials. -/
theorem c8_auth_witness :
    (("Asha" : String) ≠ "" ∧ ("a@b.c" : String) ≠ "" ∧ ("pw1" : String) ≠ "" ∧
     ("pw2" : String) ≠ "") ∧
    ((UsersState.mk [] 1).users.find? (fun u => u.email == "a@b.c") = none →
      (postRegister "Asha" "a@b.c" "pw1" ⟨[], 1⟩).2.users
        = [] ++ [⟨1, "Asha", "a@b.c", bcryptHash "pw1" 10⟩] ∧
      (postLogin "a@b.c" "pw1" (postRegister "Asha" "a@b.c" "pw1" ⟨[], 1⟩).2).status = 200 ∧
      (("pw2" : String) ≠ "pw1" →
        (postLogin "a@b.c" "pw2" (postRegister "Asha" "a@b.c" "pw1" ⟨[], 1⟩).2).status = 400 ∧
        (postLogin "a@b.c" "pw2" (postRegister "Asha" "a@b.c" "pw1" ⟨[], 1⟩).2).error
          = some "Invalid email or password")) :=
  ⟨⟨by decide, by decide, by decide, by decide⟩,
   (c8_auth "Asha" "a@b.c" "pw1" "pw2" ⟨[], 1⟩
     (by decide) (by decide) (by decide) (by decide)).2.1⟩

/-! ## C9 -/

/-- C9: on every successful login (some row matches the email and the
submitted password matches its stored hash), the JSON body's `user` field
carries the entire stored row `u` — in particular `u.password`, the stored
bcrypt digest, is included in the response. -/
theorem c9_login_leaks_row (em pw : String) (s : UsersState) (u : UserRow)
    (hem : em ≠ "") (hpw : pw ≠ "")
    (hu : s.users.find? (fun x => x.email == em) = some u)
    (hcmp : bcryptCompare pw u.password = true) :
    (postLogin em pw s).status = 200 ∧
    (postLogin em pw s).user = some u ∧
    (∃ v, (postLogin em pw s).user = some v ∧ v.password = u.password) := by
  refine ⟨?_, ?_, ⟨u, ?_, rfl⟩⟩ <;> simp [postLogin, hem, hpw, hu, hcmp]

/-- C9 witness: the theorem applied at a concrete one-user state. -/
theorem c9_login_leaks_row_witness :
    (("a@b.c" : String) ≠ "" ∧ ("pw1" : String) ≠ "" ∧
     (UsersState.mk [⟨1, "Asha", "a@b.c", bcryptHash "pw1" 10⟩] 2).users.find?
        (fun x => x.email == "a@b.c") = some ⟨1, "Asha", "a@b.c", bcryptHash "pw1" 10⟩ ∧
     bcryptCompare "pw1" (UserRow.mk 1 "Asha" "a@b.c" (bcryptHash "pw1" 10)).password = true) ∧
    ((postLogin "a@b.c" "pw1" ⟨[⟨1, "Asha", "a@b.c", bcryptHash "pw1" 10⟩], 2⟩).status = 200 ∧
     (postLogin "a@b.c" "pw1" ⟨[⟨1, "Asha", "a@b.c", bcryptHash "pw1" 10⟩], 2⟩).user
       = some ⟨1, "Asha", "a@b.c", bcryptHash "pw1" 10⟩ ∧
     (∃ v, (postLogin "a@b.c" "pw1" ⟨[⟨1, "Asha", "a@b.c", bcryptHash "pw1" 10⟩], 2⟩).user
         = some v ∧ v.password = (UserRow.mk 1 "Asha" "a@b.c" (bcryptHash "pw1" 10)).password)) :=
  ⟨⟨by decide, by decide, by decide, by decide⟩,
   c9_login_leaks_row "a@b.c" "pw1" ⟨[⟨1, "Asha", "a@b.c", bcryptHash "pw1" 10⟩], 2⟩
     ⟨1, "Asha", "a@b.c", bcryptHash "pw1" 10⟩
     (by decide) (by decide) (by decide) (by decide)⟩

/-! ## Olympiad courses (`uniquer_olympiad_courses` table):
PUT /olympiad/update-course/:id -/

/-- Scalar request-body fields of the olympiad-course update. -/
structure OlyCourseFields where
  name : String
  language : String
  grade : String
  start_date : String
  end_date : String
  description : String
  price : String
  weeks : String
  classes : String
  tests : String
deriving Repr, DecidableEq

/-- Row of the `uniquer_olympiad_courses` table. -/
structure OlyCourseRow where
  id : Nat
  name : String
  language : String
  grade : String
  start_date : String
  end_date : String
  description : String
  price : String
  weeks : String
  classes : String
  tests : String
  image : String
deriving Repr, DecidableEq

/-- `PUT /olympiad/update-course/:id` (server.js:1274-1290).  The SQL `SET`
clause is built dynamically: the ten scalar columns are always set from
the request body, and `", image=?"` is appended — with the new
`/uploads/<filename>` pushed onto the parameter list — only when a file
was uploaded; without a file the `image` column is absent from the `SET`
clause and keeps its stored value. -/
def putOlympiadUpdateCourse (id : Nat) (f : OlyCourseFields)
    (file : Option String) (rows : List OlyCourseRow) : Resp × List OlyCourseRow :=
  let image := file.map (fun fn => "/uploads/" ++ fn)
  ({ status := 200, message := some "Olympiad course updated successfully" },
   rows.map (fun r =>
     if r.id == id then
       { id := r.id, name := f.name, language := f.language, grade := f.grade,
         start_date := f.start_date, end_date := f.end_date,
         description := f.description, price := f.price, weeks := f.weeks,
         classes := f.classes, tests := f.tests,
         image := match image with
           | none => r.image
           | some i => i }
     else r))

/-! ## C10 -/

/-- C10: updating an olympiad course with no uploaded file overwrites the
ten scalar columns of every matching row with the request's values while
leaving the `image` column (and `id`) unchanged, and leaves non-matching
rows untouched: the result is exactly a map that rewrites the scalar
fields and preserves `image`. -/
theorem c10_image_frame (id : Nat) (f : OlyCourseFields)
    (rows : List OlyCourseRow) :
    ((putOlympiadUpdateCourse id f none rows).2
      = rows.map (fun r =>
          if r.id == id then
            { r with name := f.name, language := f.language, grade := f.grade,
                     start_date := f.start_date, end_date := f.end_date,
                     description := f.description, price := f.price,
                     weeks := f.weeks, classes := f.classes, tests := f.tests }
          else r)) ∧
    (∀ r ∈ rows, ¬ r.id = id → r ∈ (putOlympiadUpdateCourse id f none rows).2) ∧
    (∀ q ∈ (putOlympiadUpdateCourse id f none rows).2, q.id = id →
       ∃ r, r ∈ rows ∧ r.id = id ∧ q.image = r.image ∧
         q.name = f.name ∧ q.description = f.description ∧ q.tests = f.tests) := by
  refine ⟨rfl, ?_, ?_⟩
  · intro r hr hne
    simp only [putOlympiadUpdateCourse, List.mem_map]
    exact ⟨r, hr, by simp [hne]⟩
  · intro q hq hqid
    simp only [putOlympiadUpdateCourse, List.mem_map] at hq
    obtain ⟨r, hr, hrq⟩ := hq
    by_cases h : r.id = id
    · simp [h] at hrq
      refine ⟨r, hr, h, ?_, ?_, ?_, ?_⟩ <;> rw [← hrq]
    · simp [h] at hrq
      rw [← hrq] at hqid
      exact absurd hqid h

/-- C10 witness: the frame theorem applied at a concrete two-row table. -/
theorem c10_image_frame_witness :
    (putOlympiadUpdateCourse 1
        ⟨"N", "EN", "5", "sd", "ed", "D", "99", "4", "12", "3"⟩ none
        [⟨1, "o", "o", "o", "o", "o", "o", "o", "o", "o", "o", "/uploads/keep.png"⟩,
         ⟨2, "p", "p", "p", "p", "p", "p", "p", "p", "p", "p", "/uploads/other.png"⟩]).2
      = [⟨1, "N", "EN", "5", "sd", "ed", "D", "99", "4", "12", "3", "/uploads/keep.png"⟩,
         ⟨2, "p", "p", "p", "p", "p", "p", "p", "p", "p", "p", "/uploads/other.png"⟩] := by
  have h := (c10_image_frame 1
    ⟨"N", "EN", "5", "sd", "ed", "D", "99", "4", "12", "3"⟩
    [⟨1, "o", "o", "o", "o", "o", "o", "o", "o", "o", "o", "/uploads/keep.png"⟩,
     ⟨2, "p", "p", "p", "p", "p", "p", "p", "p", "p", "p", "/uploads/other.png"⟩]).1
  rw [h]
  decide
